import Mathlib

/-!
Verification of the perl prompt module (`src/modules/perl.rs`).

The file embeds the module's data flow: a directory probe over a cached
listing, one external-tool invocation, version formatting, and segment
assembly. Collaborators that live outside `src/` (the scan machinery of
`Context`, `utils::exec_cmd`, segment creation) are modelled from the
specification, as marked on each definition.
-/

namespace Starship

/-- Captured output of one external process invocation
(the `CommandOutput` handed back by `utils::exec_cmd`). -/
structure CommandOutput where
  stdout : String
  stderr : String
deriving DecidableEq, Repr

/-- The perl module's configuration record (`PerlConfig`): a symbol string and
a style. The style is kept opaque as a string, since the core only copies it. -/
structure PerlConfig where
  symbol : String
  style : String
deriving DecidableEq, Repr

/-- The read-only evaluation context seen by one run of `module`:
the cached directory listing (`none` when `try_begin_scan` fails),
the outcome of the one `perl` process invocation
(`none` when the binary is missing or exits non-zero), and the
loaded configuration. -/
structure Context where
  dirContents : Option (List String)
  perlExec : Option CommandOutput
  config : PerlConfig
deriving DecidableEq, Repr

/-- The unit of output: a style plus an ordered list of
(name, text) segments. -/
structure Module where
  style : String
  segments : List (String × String)
deriving DecidableEq, Repr

/-- Removing leading and trailing whitespace from a string, written by
structural recursion over the character list so that concrete evaluation
is possible inside proofs. -/
def trimStr (s : String) : String :=
  ⟨((s.data.dropWhile Char.isWhitespace).reverse.dropWhile
      Char.isWhitespace).reverse⟩

/-- Modelled from the spec: the extension test used by the directory scan
(`ScanDir` lives in `context.rs`, which is not under `src/`). A file name
matches extension `ext` when it ends with `"." ++ ext`. -/
def hasExtension (name ext : String) : Bool :=
  (("." ++ ext).data).isSuffixOf name.data

/-- Modelled from the spec: `ScanDir.is_match` (not under `src/`): true iff the
cached listing holds at least one exact filename match or at least one file
whose extension is in the extension set. -/
def isMatch (listing files exts : List String) : Bool :=
  listing.any (fun f => files.contains f || exts.any (fun e => hasExtension f e))

/-- The exact filename criteria `module` passes to `set_files`. -/
def perlFiles : List String :=
  ["Makefile.PL", "cpanfile", "META.json", "META.yml", ".perl-version"]

/-- The extension criteria `module` passes to `set_extensions`. -/
def perlExtensions : List String := ["pl", "pm"]

/-- Modelled from the spec: `utils::exec_cmd` (not under `src/`): returns the
captured output, with stdout trimmed of leading and trailing whitespace,
or `none` when the invocation failed. `outcome` is the raw result of the
single process invocation recorded in the context. -/
def exec_cmd (outcome : Option CommandOutput) : Option CommandOutput :=
  outcome.map (fun o => { o with stdout := trimStr o.stdout })

/-- `format_perl_version` from `src/modules/perl.rs`:
`format!("v{}", perl_version)` wrapped in `Some`. -/
def format_perl_version (perl_version : String) : Option String :=
  some ("v" ++ perl_version)

/-- The entry point `module` from `src/modules/perl.rs`, instrumented with the
number of `exec_cmd` invocations performed (second component). -/
def runModule (ctx : Context) : Option Module × Nat :=
  match ctx.dirContents with
  | none => (none, 0)
  | some listing =>
    let is_perl_project := isMatch listing perlFiles perlExtensions
    if !is_perl_project then (none, 0)
    else
      match exec_cmd ctx.perlExec with
      | none => (none, 1)
      | some out =>
        match format_perl_version out.stdout with
        | none => (none, 1)
        | some formatted_version =>
          (some { style := ctx.config.style
                , segments :=
                    [("symbol", ctx.config.symbol),
                     ("version", formatted_version)] }, 1)

/-- `module(context)`: the returned `Option<Module>`. -/
def module (ctx : Context) : Option Module :=
  (runModule ctx).1

/-- How many times `module(context)` invoked `exec_cmd`. -/
def execCount (ctx : Context) : Nat :=
  (runModule ctx).2

/-- Whether the directory probe matched: false when the scan could not begin,
otherwise the result of `is_match` under the module's fixed criteria. -/
def probeMatched (ctx : Context) : Bool :=
  match ctx.dirContents with
  | none => false
  | some listing => isMatch listing perlFiles perlExtensions

/-- Characterisation of `runModule`: the probe gates the evaluation, one
`exec_cmd` invocation follows a positive probe, and a successful resolution
yields the two-segment module. -/
theorem runModule_eq (ctx : Context) :
    runModule ctx =
      if probeMatched ctx = true then
        match exec_cmd ctx.perlExec with
        | none => (none, 1)
        | some out =>
          (some { style := ctx.config.style
                , segments :=
                    [("symbol", ctx.config.symbol),
                     ("version", "v" ++ out.stdout)] }, 1)
      else (none, 0) := by
  unfold runModule probeMatched
  cases ctx.dirContents with
  | none => simp
  | some listing =>
    cases h : isMatch listing perlFiles perlExtensions with
    | false => simp [h]
    | true =>
      cases exec_cmd ctx.perlExec with
      | none => simp [h]
      | some out => simp [h, format_perl_version]

/-- C1: `module(context)` returns some module if and only if the directory
probe matched, the external version resolver succeeded, and formatting
succeeded; any failure in the chain yields `none`. -/
theorem module_isSome_iff (ctx : Context) :
    (module ctx).isSome = true ↔
      probeMatched ctx = true ∧
      ∃ out, exec_cmd ctx.perlExec = some out ∧
        (format_perl_version out.stdout).isSome = true := by
  unfold module
  rw [runModule_eq]
  cases hp : probeMatched ctx with
  | false => simp
  | true =>
    cases he : exec_cmd ctx.perlExec with
    | none => simp
    | some out => simp [format_perl_version]

/-- C2: for every non-empty raw version string `s`, `format_perl_version s`
is `some ("v" ++ s)`: exactly one `v` marker is prefixed and nothing else
changes. -/
theorem format_perl_version_marker (s : String) (_h : s ≠ "") :
    format_perl_version s = some ("v" ++ s) := rfl

/-- Witness for C2 at the concrete input `"5.30.0"`. -/
theorem format_perl_version_marker_witness :
    ("5.30.0" : String) ≠ "" ∧
      format_perl_version "5.30.0" = some ("v" ++ "5.30.0") :=
  ⟨by decide, format_perl_version_marker "5.30.0" (by decide)⟩

/-- C7: the directory probe under the module's fixed criteria is monotonic:
extending a listing on which it returns true cannot turn the result false. -/
theorem probe_monotone (l l' : List String) (hsub : l ⊆ l')
    (h : isMatch l perlFiles perlExtensions = true) :
    isMatch l' perlFiles perlExtensions = true := by
  simp only [isMatch, List.any_eq_true] at h ⊢
  obtain ⟨f, hf, hp⟩ := h
  exact ⟨f, hsub hf, hp⟩

/-- Witness for C7: `["cpanfile"]` extended with `"README.md"`. -/
theorem probe_monotone_witness :
    isMatch ["cpanfile", "README.md"] perlFiles perlExtensions = true :=
  probe_monotone ["cpanfile"] ["cpanfile", "README.md"]
    (by simp) (by decide)

/-- C8: `format_perl_version` returns some result on every input string,
the empty string included, so in `module` the branch on its failure is
unreachable: a matched probe and a successful resolution force a module. -/
theorem format_perl_version_total :
    (∀ s : String, (format_perl_version s).isSome = true) ∧
      format_perl_version "" = some "v" ∧
      (∀ (ctx : Context) (out : CommandOutput),
        probeMatched ctx = true → exec_cmd ctx.perlExec = some out →
          (module ctx).isSome = true) := by
  refine ⟨fun s => rfl, rfl, fun ctx out hp he => ?_⟩
  unfold module
  rw [runModule_eq, if_pos hp, he]
  rfl

/-- Witness for C8's conditional part at a concrete context. -/
theorem format_perl_version_total_witness :
    (module ⟨some ["cpanfile"], some ⟨" 5.30.0\n", ""⟩,
        ⟨"🐪 ", "bold 149"⟩⟩).isSome = true :=
  format_perl_version_total.2.2
    ⟨some ["cpanfile"], some ⟨" 5.30.0\n", ""⟩, ⟨"🐪 ", "bold 149"⟩⟩
    ⟨"5.30.0", ""⟩ (by decide) (by decide)

/-- C3: on a listing with none of the configured filenames and no file with a
configured extension, `module` returns `none` and `exec_cmd` is never
invoked. -/
theorem module_none_and_no_exec (ctx : Context) (listing : List String)
    (hd : ctx.dirContents = some listing)
    (h : ∀ f ∈ listing,
      f ∉ perlFiles ∧ ∀ e ∈ perlExtensions, hasExtension f e = false) :
    module ctx = none ∧ execCount ctx = 0 := by
  have hp : probeMatched ctx = false := by
    unfold probeMatched
    rw [hd]
    simp only [isMatch, List.any_eq_false]
    intro f hf
    obtain ⟨h₁, h₂⟩ := h f hf
    have h₃ : (perlExtensions.any fun e => hasExtension f e) = false := by
      simp only [List.any_eq_false]
      intro e he
      simp [h₂ e he]
    simp [List.contains, h₁, h₃]
  constructor
  · unfold module
    rw [runModule_eq, if_neg (by simp [hp])]
  · unfold execCount
    rw [runModule_eq, if_neg (by simp [hp])]

/-- Witness for C3 at a listing with only non-perl entries. -/
theorem module_none_and_no_exec_witness :
    module ⟨some ["README.md", "main.rs"], some ⟨"5.30.0", ""⟩,
        ⟨"🐪 ", "bold 149"⟩⟩ = none ∧
      execCount ⟨some ["README.md", "main.rs"], some ⟨"5.30.0", ""⟩,
        ⟨"🐪 ", "bold 149"⟩⟩ = 0 :=
  module_none_and_no_exec _ ["README.md", "main.rs"] rfl (by decide)

/-- C4: with the external tool succeeding with `"5.30.0"`, a directory holding
`cpanfile`, or `.perl-version`, or a `.pl` file yields a module whose segment
texts are the configured symbol then `"v5.30.0"`; an empty directory yields
no module. -/
theorem module_scenarios (cfg : PerlConfig) :
    ((module ⟨some ["cpanfile"], some ⟨"5.30.0", ""⟩, cfg⟩).map
        (fun m => m.segments.map Prod.snd) = some [cfg.symbol, "v5.30.0"]) ∧
      ((module ⟨some [".perl-version"], some ⟨"5.30.0", ""⟩, cfg⟩).map
        (fun m => m.segments.map Prod.snd) = some [cfg.symbol, "v5.30.0"]) ∧
      ((module ⟨some ["any.pl"], some ⟨"5.30.0", ""⟩, cfg⟩).map
        (fun m => m.segments.map Prod.snd) = some [cfg.symbol, "v5.30.0"]) ∧
      module ⟨some [], some ⟨"5.30.0", ""⟩, cfg⟩ = none :=
  ⟨rfl, rfl, rfl, rfl⟩

/-- C5: a produced module carries exactly the two segments, in order: the
`symbol` segment with the configured symbol, then the `version` segment with
the formatted version, and the module's style is the configured style. -/
theorem module_segments_shape (ctx : Context) (m : Module)
    (h : module ctx = some m) :
    ∃ out, exec_cmd ctx.perlExec = some out ∧
      m.style = ctx.config.style ∧
      m.segments =
        [("symbol", ctx.config.symbol), ("version", "v" ++ out.stdout)] := by
  unfold module at h
  rw [runModule_eq] at h
  by_cases hp : probeMatched ctx = true
  · rw [if_pos hp] at h
    cases he : exec_cmd ctx.perlExec with
    | none => rw [he] at h; simp at h
    | some out =>
      rw [he] at h
      simp only [Option.some_inj] at h
      exact ⟨out, rfl, by rw [← h], by rw [← h]⟩
  · rw [if_neg hp] at h
    simp at h

/-- Witness for C5 at a concrete context and module. -/
theorem module_segments_shape_witness :
    ∃ out,
      exec_cmd (Context.mk (some ["cpanfile"]) (some ⟨"5.30.0", ""⟩)
          ⟨"🐪 ", "bold 149"⟩).perlExec = some out ∧
        (Module.mk "bold 149"
            [("symbol", "🐪 "), ("version", "v5.30.0")]).style =
          (Context.mk (some ["cpanfile"]) (some ⟨"5.30.0", ""⟩)
            ⟨"🐪 ", "bold 149"⟩).config.style ∧
        (Module.mk "bold 149"
            [("symbol", "🐪 "), ("version", "v5.30.0")]).segments =
          [("symbol",
              (Context.mk (some ["cpanfile"]) (some ⟨"5.30.0", ""⟩)
                ⟨"🐪 ", "bold 149"⟩).config.symbol),
            ("version", "v" ++ out.stdout)] :=
  module_segments_shape _ _ (by decide)

/-- C6: the stdout captured from the external tool is trimmed of leading and
trailing whitespace before being handed to `format_perl_version`, and nothing
else is done to it: the version segment reads `"v" ++ trimStr raw.stdout`. -/
theorem version_segment_trimmed (ctx : Context) (raw : CommandOutput)
    (m : Module) (hexec : ctx.perlExec = some raw)
    (hm : module ctx = some m) :
    m.segments =
      [("symbol", ctx.config.symbol),
        ("version", "v" ++ trimStr raw.stdout)] := by
  unfold module at hm
  rw [runModule_eq] at hm
  by_cases hp : probeMatched ctx = true
  · rw [if_pos hp] at hm
    have he : exec_cmd ctx.perlExec =
        some ⟨trimStr raw.stdout, raw.stderr⟩ := by
      rw [hexec]; rfl
    rw [he] at hm
    simp only [Option.some_inj] at hm
    rw [← hm]
  · rw [if_neg hp] at hm
    simp at hm

/-- Witness for C6: raw stdout with surrounding whitespace. -/
theorem version_segment_trimmed_witness :
    (Module.mk "bold 149"
        [("symbol", "🐪 "), ("version", "v5.30.0")]).segments =
      [("symbol",
          (Context.mk (some ["cpanfile"]) (some ⟨" 5.30.0\n", ""⟩)
            ⟨"🐪 ", "bold 149"⟩).config.symbol),
        ("version",
          "v" ++ trimStr (CommandOutput.mk " 5.30.0\n" "").stdout)] :=
  version_segment_trimmed _ ⟨" 5.30.0\n", ""⟩ _ rfl (by decide)

/-- C9: directories holding `Makefile.PL`, `META.json`, `META.yml`, or a
`.pm` file are also treated as perl projects: `module` produces a module and
performs the one resolver invocation. -/
theorem module_extra_markers (cfg : PerlConfig) :
    ((module ⟨some ["Makefile.PL"], some ⟨"5.30.0", ""⟩, cfg⟩).isSome = true ∧
        execCount ⟨some ["Makefile.PL"], some ⟨"5.30.0", ""⟩, cfg⟩ = 1) ∧
      ((module ⟨some ["META.json"], some ⟨"5.30.0", ""⟩, cfg⟩).isSome = true ∧
        execCount ⟨some ["META.json"], some ⟨"5.30.0", ""⟩, cfg⟩ = 1) ∧
      ((module ⟨some ["META.yml"], some ⟨"5.30.0", ""⟩, cfg⟩).isSome = true ∧
        execCount ⟨some ["META.yml"], some ⟨"5.30.0", ""⟩, cfg⟩ = 1) ∧
      ((module ⟨some ["lib.pm"], some ⟨"5.30.0", ""⟩, cfg⟩).isSome = true ∧
        execCount ⟨some ["lib.pm"], some ⟨"5.30.0", ""⟩, cfg⟩ = 1) :=
  ⟨⟨rfl, rfl⟩, ⟨rfl, rfl⟩, ⟨rfl, rfl⟩, ⟨rfl, rfl⟩⟩

/-- C10: `module` is deterministic: two contexts agreeing on the directory
listing, the process outcome, and the configuration produce equal results,
including equal invocation counts. -/
theorem module_deterministic (c₁ c₂ : Context)
    (hd : c₁.dirContents = c₂.dirContents)
    (he : c₁.perlExec = c₂.perlExec)
    (hc : c₁.config = c₂.config) :
    module c₁ = module c₂ ∧ execCount c₁ = execCount c₂ := by
  cases c₁
  cases c₂
  cases hd
  cases he
  cases hc
  exact ⟨rfl, rfl⟩

/-- Witness for C10 at two contexts with equal components. -/
theorem module_deterministic_witness :
    module ⟨some ["cpanfile"], some ⟨"5.30.0", ""⟩, ⟨"🐪 ", "bold 149"⟩⟩ =
        module ⟨some ["cpanfile"], some ⟨"5.30.0", ""⟩,
          ⟨"🐪 ", "bold 149"⟩⟩ ∧
      execCount ⟨some ["cpanfile"], some ⟨"5.30.0", ""⟩,
          ⟨"🐪 ", "bold 149"⟩⟩ =
        execCount ⟨some ["cpanfile"], some ⟨"5.30.0", ""⟩,
          ⟨"🐪 ", "bold 149"⟩⟩ :=
  module_deterministic _ _ rfl rfl rfl

end Starship
